import Mathlib

/-!
Verification development for the GBA emulator core (rustboyadvance-ng):
shallow embedding of the ARM7TDMI barrel shifter and ALU, the ARM
instruction decoder and its lookup table, the GPU scanline state machine,
the DMA controller, the I/O register file, and the peripheral step of the
main emulation loop, together with theorems about their behaviour.

Machine integers are represented as `Nat` with explicit wrapping
(`% 2^32`, `&&& 0xffff`) where the Rust source relies on fixed-width
arithmetic.
-/

/-! ## GPU scanline state machine (src/core/gpu/mod.rs) -/

/-- `GpuState` from gpu/mod.rs: the three phases of the scan cycle. -/
inductive GpuState where
  | HDraw
  | HBlank
  | VBlank
deriving DecidableEq, BEq

/-- `DisplayStatus::set_vblank` (bit 0 of DISPSTAT, a u16 bitfield). -/
def dispstatSetVblank (d : Nat) (b : Bool) : Nat :=
  if b then d ||| 1 else d &&& 0xfffe

/-- `DisplayStatus::set_hblank` (bit 1 of DISPSTAT). -/
def dispstatSetHblank (d : Nat) (b : Bool) : Nat :=
  if b then d ||| 2 else d &&& 0xfffd

/-- `DisplayStatus::set_vcount` (bit 2 of DISPSTAT). -/
def dispstatSetVcount (d : Nat) (b : Bool) : Nat :=
  if b then d ||| 4 else d &&& 0xfffb

/-- `DisplayStatus::vcount_setting` (bits 15..8 of DISPSTAT). -/
def dispstatVcountSetting (d : Nat) : Nat :=
  (d >>> 8) &&& 0xff

/-- State-machine projection of the `Gpu` struct from gpu/mod.rs: the
registers and counters read or written by `Gpu::step`, plus the display
registers mapped by ioregs.rs.  The pixel buffer and the scanline
renderers (which only read the bus and write `pixeldata`) are modelled
separately (`scanlineMode0`); they do not touch any of these fields. -/
structure GpuM where
  dispcnt : Nat
  dispstat : Nat
  bgcnt0 : Nat
  bgcnt1 : Nat
  bgcnt2 : Nat
  bgcnt3 : Nat
  bldcnt : Nat
  bldalpha : Nat
  cycles : Nat
  state : GpuState
  current_scanline : Nat
deriving DecidableEq

/-- `Gpu::new()`: reset state (DISPCNT = 0x80, everything else zero,
state HDraw, scanline 0). -/
def GpuM.reset : GpuM :=
  { dispcnt := 0x80, dispstat := 0, bgcnt0 := 0, bgcnt1 := 0, bgcnt2 := 0,
    bgcnt3 := 0, bldcnt := 0, bldalpha := 0, cycles := 0,
    state := GpuState.HDraw, current_scanline := 0 }

/-- IRQ bitmask bit positions.  Modelled from the spec: the 14-bit IRQ
field assigns bit 0 to LCD V-blank, bit 1 to LCD H-blank, bit 2 to
VCount match, and bits 8..11 to DMA 0..3 (interrupt.rs is not part of
the sources; dma.rs computes DMA IRQ numbers as `id + 8`). -/
def irqSet (irqs : Nat) (bit : Nat) : Nat :=
  irqs ||| (1 <<< bit)

/-- The VCount-match update at the top of `Gpu::step`: when the
vcount setting is nonzero, store the comparison with the current
scanline into DISPSTAT bit 2. -/
def gpuVcountUpdate (g : GpuM) : GpuM :=
  if dispstatVcountSetting g.dispstat ≠ 0 then
    let vcMatch : Bool := dispstatVcountSetting g.dispstat == g.current_scanline
    { g with dispstat := dispstatSetVcount g.dispstat vcMatch }
  else g

/-- The VCount IRQ clause of `Gpu::step`: raise the VCounterMatch IRQ
when enabled (DISPSTAT bit 5) and matching (bit 2). -/
def gpuVcountIrq (g : GpuM) (irqs : Nat) : Nat :=
  if g.dispstat.testBit 5 && g.dispstat.testBit 2 then irqSet irqs 2
  else irqs

/-- The `match self.state` phase machine of `Gpu::step` (the cycle
count has already been accumulated). -/
def gpuPhase (g : GpuM) (irqs : Nat) : GpuM × Nat :=
  match g.state with
  | GpuState.HDraw =>
    if g.cycles > 960 then
      let g := { g with current_scanline := g.current_scanline + 1,
                        cycles := g.cycles - 960 }
      if g.current_scanline < 160 then
        let g := { g with dispstat := dispstatSetHblank g.dispstat true }
        let irqs := if g.dispstat.testBit 4 then irqSet irqs 1 else irqs
        ({ g with state := GpuState.HBlank }, irqs)
      else
        let g := { g with dispstat := dispstatSetVblank g.dispstat true }
        let irqs := if g.dispstat.testBit 3 then irqSet irqs 0 else irqs
        ({ g with state := GpuState.VBlank }, irqs)
    else (g, irqs)
  | GpuState.HBlank =>
    if g.cycles > 272 then
      ({ g with cycles := g.cycles - 272,
                state := GpuState.HDraw,
                dispstat :=
                  dispstatSetVblank (dispstatSetHblank g.dispstat false) false },
       irqs)
    else (g, irqs)
  | GpuState.VBlank =>
    if g.cycles > 83776 then
      ({ g with cycles := g.cycles - 83776,
                state := GpuState.HDraw,
                dispstat :=
                  dispstatSetVblank (dispstatSetHblank g.dispstat false) false,
                current_scanline := 0 },
       irqs)
    else (g, irqs)

/-- `Gpu::step` from gpu/mod.rs (SyncedIoDevice impl), translated
statement by statement: accumulate cycles, update the VCount-match
bit, raise the VCount IRQ if due, then run the phase machine.  The
`irqs` bitmask is threaded instead of passed by mutable reference; the
`self.scanline(sb)` render calls only write `pixeldata` and so do not
appear in this state projection. -/
def GpuM.step (g0 : GpuM) (cycles : Nat) (irqs0 : Nat) : GpuM × Nat :=
  let g := { g0 with cycles := g0.cycles + cycles }
  let g := gpuVcountUpdate g
  let irqs := gpuVcountIrq g irqs0
  gpuPhase g irqs

/-- The GPU component of one step (the raised IRQ bits discarded). -/
def gpuAdvance (g : GpuM) (cycles : Nat) : GpuM :=
  (GpuM.step g cycles 0).fst

/-- One full scanline of GPU stepping as driven per the spec scenario:
a 960-cycle step followed by a 272-cycle step. -/
def gpuScanlinePair (g : GpuM) : GpuM :=
  gpuAdvance (gpuAdvance g 960) 272

/-! ## Interrupt controller registers and byte memory -/

/-- The `InterruptController` register file.  Modelled from the spec:
IE/IF/IME registers (interrupt.rs is not among the sources; ioregs.rs
reads and writes these exact fields). -/
structure IntC where
  interrupt_enable : Nat
  interrupt_flags : Nat
  interrupt_master_enable : Bool
deriving DecidableEq

/-- `InterruptController::request_irqs`.  Modelled from the spec: the
raised IRQ bitmask is folded into the pending interrupt flags. -/
def IntC.requestIrqs (i : IntC) (irqs : Nat) : IntC :=
  { i with interrupt_flags := i.interrupt_flags ||| irqs }

/-- `InterruptController::irq_pending`.  Modelled from the spec: an IRQ
is delivered when IME is set and some flag bit is enabled in IE. -/
def IntC.irqPending (i : IntC) : Bool :=
  i.interrupt_master_enable && (i.interrupt_enable &&& i.interrupt_flags != 0)

/-- Little-endian byte memory (`BoxedMemory` from sysbus.rs is not among
the sources; reads return bytes, writes store bytes). -/
def memWrite8 (m : Nat → Nat) (a v : Nat) : Nat → Nat :=
  fun x => if x = a then v % 256 else m x

/-- 16-bit little-endian read from byte memory. -/
def memRead16 (m : Nat → Nat) (a : Nat) : Nat :=
  (m a &&& 0xff) ||| ((m (a + 1) &&& 0xff) <<< 8)

/-- 16-bit little-endian write to byte memory. -/
def memWrite16 (m : Nat → Nat) (a v : Nat) : Nat → Nat :=
  memWrite8 (memWrite8 m a (v &&& 0xff)) (a + 1) ((v >>> 8) &&& 0xff)

/-- 32-bit little-endian read from byte memory. -/
def memRead32 (m : Nat → Nat) (a : Nat) : Nat :=
  memRead16 m a ||| (memRead16 m (a + 2) <<< 16)

/-- 32-bit little-endian write to byte memory. -/
def memWrite32 (m : Nat → Nat) (a v : Nat) : Nat → Nat :=
  memWrite16 (memWrite16 m a (v &&& 0xffff)) (a + 2) (v >>> 16)

/-! ## I/O register file (src/core/ioregs.rs)

Register address constants from `ioregs::consts`. -/

def IO_BASE : Nat := 0x04000000
def REG_DISPCNT : Nat := IO_BASE + 0x0000
def REG_DISPSTAT : Nat := IO_BASE + 0x0004
def REG_VCOUNT : Nat := IO_BASE + 0x0006
def REG_BG0CNT : Nat := IO_BASE + 0x0008
def REG_BG1CNT : Nat := IO_BASE + 0x000A
def REG_BG2CNT : Nat := IO_BASE + 0x000C
def REG_BG3CNT : Nat := IO_BASE + 0x000E
def REG_BLDCNT : Nat := IO_BASE + 0x0050
def REG_BLDALPHA : Nat := IO_BASE + 0x0052
def REG_IE : Nat := IO_BASE + 0x0200
def REG_IF : Nat := IO_BASE + 0x0202
def REG_IME : Nat := IO_BASE + 0x0208

/-- Projection of the `IoRegs` state reached through `io`: the GPU
register file, the interrupt controller, and the backing `mem` used for
unmapped offsets.  (Window, affine, timer, sound, keypad and DMA
register arms of ioregs.rs are not needed by any claim and are served
by the `mem` fallback in this projection.) -/
structure IoS where
  gpu : GpuM
  intc : IntC
  mem : Nat → Nat

/-- `IoRegs::read_16` from ioregs.rs: `addr` is the offset within the
I/O region and is matched against `addr + IO_BASE` as in the source. -/
def ioRead16 (s : IoS) (addr : Nat) : Nat :=
  if addr + IO_BASE = REG_DISPCNT then s.gpu.dispcnt
  else if addr + IO_BASE = REG_DISPSTAT then s.gpu.dispstat
  else if addr + IO_BASE = REG_VCOUNT then s.gpu.current_scanline
  else if addr + IO_BASE = REG_BG0CNT then s.gpu.bgcnt0
  else if addr + IO_BASE = REG_BG1CNT then s.gpu.bgcnt1
  else if addr + IO_BASE = REG_BG2CNT then s.gpu.bgcnt2
  else if addr + IO_BASE = REG_BG3CNT then s.gpu.bgcnt3
  else if addr + IO_BASE = REG_BLDCNT then s.gpu.bldcnt
  else if addr + IO_BASE = REG_BLDALPHA then s.gpu.bldalpha
  else if addr + IO_BASE = REG_IME then (if s.intc.interrupt_master_enable then 1 else 0)
  else if addr + IO_BASE = REG_IE then s.intc.interrupt_enable
  else if addr + IO_BASE = REG_IF then s.intc.interrupt_flags
  else memRead16 s.mem addr

/-- `IoRegs::read_32`: two 16-bit reads. -/
def ioRead32 (s : IoS) (addr : Nat) : Nat :=
  ((ioRead16 s (addr + 2)) <<< 16) ||| ioRead16 s addr

/-- `IoRegs::read_8`: low byte of the 16-bit read. -/
def ioRead8 (s : IoS) (addr : Nat) : Nat :=
  ioRead16 s addr &&& 0xff

/-- `IoRegs::write_16` from ioregs.rs.  Note that the DISPCNT, DISPSTAT
and BG0..3CNT arms OR the written value into the register (`|=` in the
source), while BLDCNT, BLDALPHA and IE assign it; IF is
acknowledge-on-write (`&= !value`); IME stores `value != 0`. -/
def ioWrite16 (s : IoS) (addr v : Nat) : IoS :=
  if addr + IO_BASE = REG_DISPCNT then
    { s with gpu := { s.gpu with dispcnt := s.gpu.dispcnt ||| v } }
  else if addr + IO_BASE = REG_DISPSTAT then
    { s with gpu := { s.gpu with dispstat := s.gpu.dispstat ||| v } }
  else if addr + IO_BASE = REG_BG0CNT then
    { s with gpu := { s.gpu with bgcnt0 := s.gpu.bgcnt0 ||| v } }
  else if addr + IO_BASE = REG_BG1CNT then
    { s with gpu := { s.gpu with bgcnt1 := s.gpu.bgcnt1 ||| v } }
  else if addr + IO_BASE = REG_BG2CNT then
    { s with gpu := { s.gpu with bgcnt2 := s.gpu.bgcnt2 ||| v } }
  else if addr + IO_BASE = REG_BG3CNT then
    { s with gpu := { s.gpu with bgcnt3 := s.gpu.bgcnt3 ||| v } }
  else if addr + IO_BASE = REG_BLDCNT then
    { s with gpu := { s.gpu with bldcnt := v } }
  else if addr + IO_BASE = REG_BLDALPHA then
    { s with gpu := { s.gpu with bldalpha := v } }
  else if addr + IO_BASE = REG_IME then
    { s with intc := { s.intc with interrupt_master_enable := v != 0 } }
  else if addr + IO_BASE = REG_IE then
    { s with intc := { s.intc with interrupt_enable := v } }
  else if addr + IO_BASE = REG_IF then
    { s with intc := { s.intc with interrupt_flags :=
        s.intc.interrupt_flags &&& (0xffff ^^^ (v &&& 0xffff)) } }
  else
    { s with mem := memWrite16 s.mem addr v }

/-- `IoRegs::write_32`: two 16-bit writes. -/
def ioWrite32 (s : IoS) (addr v : Nat) : IoS :=
  ioWrite16 (ioWrite16 s addr (v &&& 0xffff)) (addr + 2) (v >>> 16)

/-- `IoRegs::write_8` from ioregs.rs, with the u16 shifts wrapping as in
Rust (`&&& 0xffff`).  The odd branch merges the new byte above the
preserved low byte; the even branch computes `upper = t << 8` and then
writes `(upper << 8) | lower`. -/
def ioWrite8 (s : IoS) (addr v : Nat) : IoS :=
  if addr &&& 1 ≠ 0 then
    let addr2 := addr &&& 0xfffffffe
    let t := ioRead16 s addr2
    let upper := v
    let lower := t &&& 0xff
    ioWrite16 s addr2 (((upper <<< 8) &&& 0xffff) ||| lower)
  else
    let t := ioRead16 s addr
    let upper := (t <<< 8) &&& 0xffff
    let lower := v
    ioWrite16 s addr (((upper <<< 8) &&& 0xffff) ||| lower)

/-! ## System bus (projection) -/

/-- Projection of `SysBus`: sysbus.rs is not among the sources, so the
regions the claims touch are kept separately — `vram` and `palette_ram`
(byte memories read by the GPU renderers) and a flat `mem` byte memory
standing for the full bus dispatch used by DMA transfers (modelled from
the spec's memory map). -/
structure SysBusM where
  vram : Nat → Nat
  palette_ram : Nat → Nat
  mem : Nat → Nat

/-! ## DMA controller (src/core/dma.rs) -/

/-- `DmaChannelCtrl::dst_adj` (bits 6..5). -/
def ctrlDstAdj (c : Nat) : Nat := (c >>> 5) &&& 3

/-- `DmaChannelCtrl::src_adj` (bits 8..7). -/
def ctrlSrcAdj (c : Nat) : Nat := (c >>> 7) &&& 3

/-- `DmaChannelCtrl::repeat` (bit 9). -/
def ctrlRepeat (c : Nat) : Bool := c.testBit 9

/-- `DmaChannelCtrl::is_32bit` (bit 10). -/
def ctrlIs32bit (c : Nat) : Bool := c.testBit 10

/-- `DmaChannelCtrl::timing` (bits 13..12). -/
def ctrlTiming (c : Nat) : Nat := (c >>> 12) &&& 3

/-- `DmaChannelCtrl::is_triggering_irq` (bit 14). -/
def ctrlTriggeringIrq (c : Nat) : Bool := c.testBit 14

/-- `DmaChannelCtrl::is_enabled` (bit 15). -/
def ctrlIsEnabled (c : Nat) : Bool := c.testBit 15

/-- `DmaChannelCtrl::set_enabled` (bit 15, u16 bitfield). -/
def ctrlSetEnabled (c : Nat) (b : Bool) : Nat :=
  if b then c ||| 0x8000 else c &&& 0x7fff

/-- `DmaChannel` from dma.rs. -/
structure DmaChannel where
  id : Nat
  src : Nat
  dst : Nat
  wc : Nat
  ctrl : Nat
  cycles : Nat
  start_cycles : Nat
deriving DecidableEq

/-- One iteration of the `for word in 0..self.wc` transfer loop of
`DmaChannel::xfer`: move one unit over the bus, then adjust `src` and
`dst` with u32 wrapping arithmetic.  The source-adjustment value 3 and
destination values above 3 are panic arms in the source (they cannot
arise from the 2-bit fields); they leave the address unchanged here. -/
def dmaXferWord (c : DmaChannel) (sb : SysBusM) : DmaChannel × SysBusM :=
  let wordSize : Nat := if ctrlIs32bit c.ctrl then 4 else 2
  let sb :=
    if wordSize = 4 then
      { sb with mem := memWrite32 sb.mem c.dst (memRead32 sb.mem c.src) }
    else
      { sb with mem := memWrite16 sb.mem c.dst (memRead16 sb.mem c.src) }
  let src :=
    if ctrlSrcAdj c.ctrl = 0 then (c.src + wordSize) % 4294967296
    else if ctrlSrcAdj c.ctrl = 1 then (c.src + 4294967296 - wordSize) % 4294967296
    else c.src
  let dst :=
    if ctrlDstAdj c.ctrl = 0 ∨ ctrlDstAdj c.ctrl = 3 then (c.dst + wordSize) % 4294967296
    else if ctrlDstAdj c.ctrl = 1 then (c.dst + 4294967296 - wordSize) % 4294967296
    else c.dst
  ({ c with src := src, dst := dst }, sb)

/-- The `for word in 0..self.wc` loop of `DmaChannel::xfer`, by
recursion on the number of remaining words. -/
def dmaXferLoop : Nat → DmaChannel → SysBusM → DmaChannel × SysBusM
  | 0, c, sb => (c, sb)
  | Nat.succ n, c, sb =>
    let r := dmaXferWord c sb
    dmaXferLoop n r.fst r.snd

/-- `DmaChannel::xfer` from dma.rs: run the word loop, raise the
channel IRQ (source `id + 8`) if requested, then either rearm (repeat,
optionally reloading `dst` when dst-adjust = 3) or clear the enable
bit. -/
def DmaChannel.xfer (c0 : DmaChannel) (sb0 : SysBusM) (irqs0 : Nat) :
    DmaChannel × SysBusM × Nat :=
  let dstRld := c0.dst
  let r := dmaXferLoop c0.wc c0 sb0
  let c := r.fst
  let irqs := if ctrlTriggeringIrq c.ctrl then irqSet irqs0 (c.id + 8) else irqs0
  let c :=
    if ctrlRepeat c.ctrl then
      { c with start_cycles := c.cycles,
               dst := if ctrlDstAdj c.ctrl = 3 then dstRld else c.dst }
    else
      { c with ctrl := ctrlSetEnabled c.ctrl false }
  (c, r.snd, irqs)

/-- `DmaChannel::update` from dma.rs: on a cycle tick, an enabled
channel transfers whenever `start_cycles == 0 && cycles > start_cycles + 2`
— the timing field is not consulted. -/
def DmaChannel.update (c : DmaChannel) (cycles : Nat) (sb : SysBusM) (irqs : Nat) :
    DmaChannel × SysBusM × Nat :=
  if ctrlIsEnabled c.ctrl then
    if c.start_cycles = 0 ∧ cycles > c.start_cycles + 2 then
      DmaChannel.xfer c sb irqs
    else (c, sb, irqs)
  else (c, sb, irqs)

/-- `DmaController` from dma.rs: four channels and an accumulated cycle
counter. -/
structure DmaController where
  ch0 : DmaChannel
  ch1 : DmaChannel
  ch2 : DmaChannel
  ch3 : DmaChannel
  cycles : Nat
deriving DecidableEq

/-- `DmaController::new()`: channels 0..3 with all-zero registers. -/
def DmaController.new : DmaController :=
  let mk := fun (i : Nat) =>
    { id := i, src := 0, dst := 0, wc := 0, ctrl := 0, cycles := 0,
      start_cycles := 0 : DmaChannel }
  { ch0 := mk 0, ch1 := mk 1, ch2 := mk 2, ch3 := mk 3, cycles := 0 }

/-- `SyncedIoDevice::step` for `DmaController`: accumulate cycles, then
update each channel in order with the accumulated count, threading the
bus and the IRQ bitmask. -/
def DmaController.step (d0 : DmaController) (cycles : Nat) (sb : SysBusM) (irqs : Nat) :
    DmaController × SysBusM × Nat :=
  let d := { d0 with cycles := d0.cycles + cycles }
  let r0 := DmaChannel.update d.ch0 d.cycles sb irqs
  let r1 := DmaChannel.update d.ch1 d.cycles r0.snd.fst r0.snd.snd
  let r2 := DmaChannel.update d.ch2 d.cycles r1.snd.fst r1.snd.snd
  let r3 := DmaChannel.update d.ch3 d.cycles r2.snd.fst r2.snd.snd
  ({ d with ch0 := r0.fst, ch1 := r1.fst, ch2 := r2.fst, ch3 := r3.fst },
   r3.snd.fst, r3.snd.snd)

/-- The per-channel body of `DmaController::notify_vblank`: skip
disabled channels, transfer those with timing 1. -/
def dmaNotifyVblankCh (c : DmaChannel) (sb : SysBusM) (irqs : Nat) :
    DmaChannel × SysBusM × Nat :=
  if ¬ ctrlIsEnabled c.ctrl then (c, sb, irqs)
  else if ctrlTiming c.ctrl = 1 then DmaChannel.xfer c sb irqs
  else (c, sb, irqs)

/-- `DmaController::notify_vblank` from dma.rs. -/
def DmaController.notifyVblank (d : DmaController) (sb : SysBusM) (irqs : Nat) :
    DmaController × SysBusM × Nat :=
  let r0 := dmaNotifyVblankCh d.ch0 sb irqs
  let r1 := dmaNotifyVblankCh d.ch1 r0.snd.fst r0.snd.snd
  let r2 := dmaNotifyVblankCh d.ch2 r1.snd.fst r1.snd.snd
  let r3 := dmaNotifyVblankCh d.ch3 r2.snd.fst r2.snd.snd
  ({ d with ch0 := r0.fst, ch1 := r1.fst, ch2 := r2.fst, ch3 := r3.fst },
   r3.snd.fst, r3.snd.snd)

/-- The per-channel body of `DmaController::notify_hblank`: skip
disabled channels, transfer those with timing 2. -/
def dmaNotifyHblankCh (c : DmaChannel) (sb : SysBusM) (irqs : Nat) :
    DmaChannel × SysBusM × Nat :=
  if ¬ ctrlIsEnabled c.ctrl then (c, sb, irqs)
  else if ctrlTiming c.ctrl = 2 then DmaChannel.xfer c sb irqs
  else (c, sb, irqs)

/-- `DmaController::notify_hblank` from dma.rs. -/
def DmaController.notifyHblank (d : DmaController) (sb : SysBusM) (irqs : Nat) :
    DmaController × SysBusM × Nat :=
  let r0 := dmaNotifyHblankCh d.ch0 sb irqs
  let r1 := dmaNotifyHblankCh d.ch1 r0.snd.fst r0.snd.snd
  let r2 := dmaNotifyHblankCh d.ch2 r1.snd.fst r1.snd.snd
  let r3 := dmaNotifyHblankCh d.ch3 r2.snd.fst r2.snd.snd
  ({ d with ch0 := r0.fst, ch1 := r1.fst, ch2 := r2.fst, ch3 := r3.fst },
   r3.snd.fst, r3.snd.snd)

/-- `DmaController::write_dma_ctrl` from dma.rs: latch `start_cycles`
on enable, store the control word. -/
def DmaController.writeDmaCtrlCh (d : DmaController) (c : DmaChannel) (value : Nat) :
    DmaChannel :=
  let c := if ctrlIsEnabled value then { c with start_cycles := d.cycles } else c
  { c with ctrl := value }

/-! ## Main loop peripheral step (src/core/gba.rs) -/

/-- Reduced machine state for `GameBoyAdvance::emulate_peripherals`:
the GPU, DMA controller, bus and interrupt controller, the CPSR I bit
(`cpsr.irq_disabled()`), and a flag recording that
`cpu.exception(Exception::Irq)` was entered (the CPU core itself is out
of scope). -/
structure GbaM where
  gpu : GpuM
  dmac : DmaController
  sb : SysBusM
  intc : IntC
  cpsrI : Bool
  inIrqException : Bool

/-- The peripheral-advance phase of `emulate_peripherals` (all
statements before the `if !self.cpu.cpsr.irq_disabled()` gate): step
the timers, then the GPU, notify the DMA controller on an H-blank or
V-blank transition, then step the DMA controller, accumulating raised
IRQ bits in order.  `timersStep` abstracts `Timers::step` (timer.rs is
not among the sources): it receives the cycle count and the IRQ
bitmask and returns the updated bitmask. -/
def peripheralsAdvance (timersStep : Nat → Nat → Nat) (g : GbaM) (cycles : Nat) :
    GpuM × DmaController × SysBusM × Nat :=
  let irqs : Nat := 0
  let irqs := timersStep cycles irqs
  let prevState := g.gpu.state
  let gpuR := GpuM.step g.gpu cycles irqs
  let gpu2 := gpuR.fst
  let irqs := gpuR.snd
  let notifyR :=
    if gpu2.state ≠ prevState then
      match gpu2.state with
      | GpuState.HBlank => DmaController.notifyHblank g.dmac g.sb irqs
      | GpuState.VBlank => DmaController.notifyVblank g.dmac g.sb irqs
      | GpuState.HDraw => (g.dmac, g.sb, irqs)
    else (g.dmac, g.sb, irqs)
  let stepR := DmaController.step notifyR.fst cycles notifyR.snd.fst notifyR.snd.snd
  (gpu2, stepR.fst, stepR.snd.fst, stepR.snd.snd)

/-- `GameBoyAdvance::emulate_peripherals` from gba.rs: advance the
peripherals, then — only when the CPSR I bit is clear — fold the raised
IRQ bits into the interrupt controller and enter the IRQ exception if
one is pending. -/
def emulatePeripherals (timersStep : Nat → Nat → Nat) (g : GbaM) (cycles : Nat) :
    GbaM :=
  let adv := peripheralsAdvance timersStep g cycles
  let g2 := { g with gpu := adv.fst, dmac := adv.snd.fst, sb := adv.snd.snd.fst }
  let irqs := adv.snd.snd.snd
  if ¬ g.cpsrI then
    let intc2 := IntC.requestIrqs g.intc irqs
    if IntC.irqPending intc2 then
      { g2 with intc := intc2, inIrqException := true }
    else
      { g2 with intc := intc2 }
  else g2

/-! ## Barrel shifter and ALU (src/core/arm7tdmi/alu.rs)

32-bit values are `Nat`s holding the i32 bit pattern; `toInt32` is the
signed reinterpretation. -/

/-- u32/i32 wrap-around. -/
def wrap32 (n : Nat) : Nat := n % 4294967296

/-- Signed reinterpretation of a 32-bit pattern. -/
def toInt32 (n : Nat) : Int :=
  if n < 2147483648 then (n : Int) else (n : Int) - 4294967296

/-- Arithmetic (sign-filling) right shift of a 32-bit pattern, as
performed by `>>` on Rust `i32`. -/
def asr32 (v k : Nat) : Nat :=
  if v.testBit 31 then (v >>> k) ||| (((1 <<< k) - 1) <<< (32 - k))
  else v >>> k

/-- 32-bit right rotation (`i32::rotate_right`), for `0 < k < 32`. -/
def ror32 (v k : Nat) : Nat :=
  ((v >>> k) ||| (v <<< (32 - k))) &&& 0xffffffff

/-- `BarrelShiftOpCode` from alu.rs. -/
inductive BarrelShiftOpCode where
  | LSL
  | LSR
  | ASR
  | ROR
deriving DecidableEq

/-- `BarrelShifter::barrel_shift_op` from alu.rs, returning the result
value together with the new `carry_out` field; `carryOutField` is the
shifter's `carry_out` before the call (the `LSR/ASR/ROR` register-form
zero/32 arms leave it untouched). -/
def barrelShiftOp (shift : BarrelShiftOpCode) (val amount : Nat)
    (carryIn : Bool) (immediate : Bool) (carryOutField : Bool) : Nat × Bool :=
  match shift with
  | BarrelShiftOpCode.LSL =>
    if amount = 0 then (val, carryIn)
    else if amount < 32 then
      ((val <<< amount) &&& 0xffffffff, ((val >>> (32 - amount)) &&& 1) = 1)
    else if amount = 32 then (0, (val &&& 1) = 1)
    else (0, false)
  | BarrelShiftOpCode.LSR =>
    if amount = 0 ∨ amount = 32 then
      if immediate then (0, val.testBit 31) else (val, carryOutField)
    else if amount < 32 then
      (val >>> amount, ((asr32 val (amount - 1)) &&& 1) = 1)
    else (0, false)
  | BarrelShiftOpCode.ASR =>
    if amount = 0 then
      if immediate then
        (if val.testBit 31 then (0xffffffff, true) else (0, false))
      else (val, carryOutField)
    else if amount < 32 then
      (asr32 val amount, ((asr32 val (amount - 1)) &&& 1) = 1)
    else
      (if val.testBit 31 then (0xffffffff, true) else (0, false))
  | BarrelShiftOpCode.ROR =>
    if amount = 0 then
      if immediate then
        (((val >>> 1) ||| ((if carryIn then 1 else 0) <<< 31)), (val &&& 1) ≠ 0)
      else (val, carryOutField)
    else
      let amount2 := amount % 32
      let val2 := if amount2 ≠ 0 then ror32 val amount2 else val
      (val2, val2.testBit 31)

/-- `ShiftRegisterBy` from alu.rs. -/
inductive ShiftRegisterBy where
  | ByAmount (amount : Nat)
  | ByRegister (rs : Nat)
deriving DecidableEq

/-- `ShiftedRegister` from alu.rs. -/
structure ShiftedRegister where
  reg : Nat
  shift_by : ShiftRegisterBy
  bs_op : BarrelShiftOpCode
  added : Option Bool

/-- `Core::register_shift` from alu.rs: `regs` is the register file,
`cpsrC` the CPSR carry, `carryOutField` the shifter's current
`carry_out`.  The immediate-field source passes `immediate = true`;
a register-supplied amount reads the low byte of Rs and passes
`immediate = false`; Rs = R15 is `Err(IllegalInstruction)` (`none`). -/
def registerShift (regs : Nat → Nat) (cpsrC : Bool) (carryOutField : Bool)
    (shift : ShiftedRegister) : Option (Nat × Bool) :=
  let val := regs shift.reg
  match shift.shift_by with
  | ShiftRegisterBy.ByAmount amount =>
    some (barrelShiftOp shift.bs_op val amount cpsrC true carryOutField)
  | ShiftRegisterBy.ByRegister rs =>
    let val := if shift.reg = 15 then wrap32 (val + 4) else val
    if rs ≠ 15 then
      some (barrelShiftOp shift.bs_op val (regs rs &&& 0xff) cpsrC false carryOutField)
    else none

/-- `AluOpCode` from alu.rs. -/
inductive AluOpCode where
  | AND | EOR | SUB | RSB | ADD | ADC | SBC | RSC
  | TST | TEQ | CMP | CMN | ORR | MOV | BIC | MVN
deriving DecidableEq

/-- `AluOpCode::is_setting_flags` (the compare-only opcodes). -/
def AluOpCode.isSettingFlags : AluOpCode → Bool
  | AluOpCode.TST | AluOpCode.TEQ | AluOpCode.CMP | AluOpCode.CMN => true
  | _ => false

/-- `AluOpCode::is_arithmetic`. -/
def AluOpCode.isArithmetic : AluOpCode → Bool
  | AluOpCode.ADD | AluOpCode.ADC | AluOpCode.SUB | AluOpCode.SBC
  | AluOpCode.RSB | AluOpCode.RSC | AluOpCode.CMP | AluOpCode.CMN => true
  | _ => false

/-- Rust `i32::overflowing_add` overflow flag: the mathematical signed
sum leaves the i32 range. -/
def addOverflows (a b : Nat) : Bool :=
  decide (toInt32 a + toInt32 b < -2147483648 ∨ 2147483647 < toInt32 a + toInt32 b)

/-- Rust `i32::overflowing_sub` overflow flag. -/
def subOverflows (a b : Nat) : Bool :=
  decide (toInt32 a - toInt32 b < -2147483648 ∨ 2147483647 < toInt32 a - toInt32 b)

/-- `Core::alu_add_flags` from alu.rs: wrapping sum, carry from the
unsigned comparisons `res < a || res < b`, overflow from
`overflowing_add`.  Returns (result, carry, overflow). -/
def aluAddFlags (a b : Nat) : Nat × Bool × Bool :=
  let res := wrap32 (a + b)
  (res, decide (res < a ∨ res < b), addOverflows a b)

/-- `Core::alu_sub_flags` from alu.rs: wrapping difference, carry from
the *signed* comparison `b <= a` (`a`, `b` are `i32` in the source),
overflow from `overflowing_sub`. -/
def aluSubFlags (a b : Nat) : Nat × Bool × Bool :=
  (wrap32 (a + 4294967296 - wrap32 b), decide (toInt32 b ≤ toInt32 a), subOverflows a b)

/-- Result of `Core::alu_flags`: the optional result (compare opcodes
return `None`) and the new N, Z, C, V flags. -/
structure AluOut where
  result : Option Nat
  n : Bool
  z : Bool
  c : Bool
  v : Bool
deriving DecidableEq

/-- `Core::alu_flags` from alu.rs.  `bsCarry` is `self.bs.carry_out`
(the initial value of the local `carry`), `cpsrC` is the CPSR C flag
read into `C`, `cpsrV` the CPSR V flag (the initial `overflow`). -/
def aluFlags (opcode : AluOpCode) (op1 op2 : Nat)
    (bsCarry cpsrC cpsrV : Bool) : AluOut :=
  let C : Nat := if cpsrC then 1 else 0
  let rco : Nat × Bool × Bool :=
    match opcode with
    | AluOpCode.AND | AluOpCode.TST => (op1 &&& op2, bsCarry, cpsrV)
    | AluOpCode.EOR | AluOpCode.TEQ => (op1 ^^^ op2, bsCarry, cpsrV)
    | AluOpCode.SUB | AluOpCode.CMP => aluSubFlags op1 op2
    | AluOpCode.RSB => aluSubFlags op2 op1
    | AluOpCode.ADD | AluOpCode.CMN => aluAddFlags op1 op2
    | AluOpCode.ADC => aluAddFlags op1 (wrap32 (op2 + C))
    | AluOpCode.SBC =>
      let r := aluSubFlags op1 op2
      (wrap32 (r.fst + 4294967296 - (1 - C)), r.snd)
    | AluOpCode.RSC =>
      let r := aluSubFlags op2 op1
      (wrap32 (r.fst + 4294967296 - (1 - C)), r.snd)
    | AluOpCode.ORR => (op1 ||| op2, bsCarry, cpsrV)
    | AluOpCode.MOV => (op2, bsCarry, cpsrV)
    | AluOpCode.BIC => (op1 &&& (0xffffffff ^^^ (op2 &&& 0xffffffff)), bsCarry, cpsrV)
    | AluOpCode.MVN => (0xffffffff ^^^ (op2 &&& 0xffffffff), bsCarry, cpsrV)
  let result := rco.fst
  let carry := rco.snd.fst
  let overflow := rco.snd.snd
  { result := if opcode.isSettingFlags then none else some result,
    n := decide (toInt32 result < 0),
    z := decide (result = 0),
    c := carry,
    v := if opcode.isArithmetic then overflow else cpsrV }

/-! ## ARM instruction decoder
(rustboyadvance-core/src/core/arm7tdmi/arm/mod.rs and
src/core/arm7tdmi/arm/lut.rs) -/

/-- `ArmFormat` from arm/mod.rs (the direct decoder's enum). -/
inductive ArmFormat where
  | BranchExchange
  | BranchLink
  | SoftwareInterrupt
  | Multiply
  | MultiplyLong
  | SingleDataTransfer
  | HalfwordDataTransferRegOffset
  | HalfwordDataTransferImmediateOffset
  | DataProcessing
  | BlockDataTransfer
  | SingleDataSwap
  | MoveFromStatus
  | MoveToStatus
  | MoveToFlags
  | Undefined
deriving DecidableEq

/-- `ArmInstruction::decode` (the format computation) from arm/mod.rs:
the ordered mask/expected tests, first match wins. -/
def armDecodeFormat (raw : Nat) : ArmFormat :=
  if 0x0ffffff0 &&& raw = 0x012fff10 then ArmFormat.BranchExchange
  else if 0x0e000000 &&& raw = 0x0a000000 then ArmFormat.BranchLink
  else if 0xe0000010 &&& raw = 0x06000000 then ArmFormat.Undefined
  else if 0x0fb00ff0 &&& raw = 0x01000090 then ArmFormat.SingleDataSwap
  else if 0x0fc000f0 &&& raw = 0x00000090 then ArmFormat.Multiply
  else if 0x0f8000f0 &&& raw = 0x00800090 then ArmFormat.MultiplyLong
  else if 0x0fbf0fff &&& raw = 0x010f0000 then ArmFormat.MoveFromStatus
  else if 0x0fbffff0 &&& raw = 0x0129f000 then ArmFormat.MoveToStatus
  else if 0x0dbff000 &&& raw = 0x0128f000 then ArmFormat.MoveToFlags
  else if 0x0c000000 &&& raw = 0x04000000 then ArmFormat.SingleDataTransfer
  else if 0x0e400f90 &&& raw = 0x00000090 then ArmFormat.HalfwordDataTransferRegOffset
  else if 0x0e400090 &&& raw = 0x00400090 then ArmFormat.HalfwordDataTransferImmediateOffset
  else if 0x0e000000 &&& raw = 0x08000000 then ArmFormat.BlockDataTransfer
  else if 0x0f000000 &&& raw = 0x0f000000 then ArmFormat.SoftwareInterrupt
  else if 0x0c000000 &&& raw = 0x00000000 then ArmFormat.DataProcessing
  else ArmFormat.Undefined

/-- The ordered mask table of spec section 4.4, written out as the
spec's first-match classification.  This is the spec-side definition
for the refinement claim; it is compared against `armDecodeFormat` and
the LUT classifier. -/
def armSpecFormat (w : Nat) : ArmFormat :=
  if 0x0ffffff0 &&& w = 0x012fff10 then ArmFormat.BranchExchange
  else if 0xe0000010 &&& w = 0x06000000 then ArmFormat.Undefined
  else if 0x0fb00ff0 &&& w = 0x01000090 then ArmFormat.SingleDataSwap
  else if 0x0fc000f0 &&& w = 0x00000090 then ArmFormat.Multiply
  else if 0x0f8000f0 &&& w = 0x00800090 then ArmFormat.MultiplyLong
  else if 0x0fbf0fff &&& w = 0x010f0000 then ArmFormat.MoveFromStatus
  else if 0x0fbffff0 &&& w = 0x0129f000 then ArmFormat.MoveToStatus
  else if 0x0dbff000 &&& w = 0x0128f000 then ArmFormat.MoveToFlags
  else if 0x0c000000 &&& w = 0x04000000 then ArmFormat.SingleDataTransfer
  else if 0x0e400f90 &&& w = 0x00000090 then ArmFormat.HalfwordDataTransferRegOffset
  else if 0x0e400090 &&& w = 0x00400090 then ArmFormat.HalfwordDataTransferImmediateOffset
  else if 0x0e000000 &&& w = 0x08000000 then ArmFormat.BlockDataTransfer
  else if 0x0e000000 &&& w = 0x0a000000 then ArmFormat.BranchLink
  else if 0x0f000000 &&& w = 0x0f000000 then ArmFormat.SoftwareInterrupt
  else if 0x0c000000 &&& w = 0x00000000 then ArmFormat.DataProcessing
  else ArmFormat.Undefined

/-- `ArmFormat` from arm/lut.rs (the LUT build's enum; same formats
under the abbreviated names used there). -/
inductive ArmFormatLut where
  | BX
  | B_BL
  | SWI
  | DP
  | LDR_STR
  | LDR_STR_HS_IMM
  | LDR_STR_HS_REG
  | LDM_STM
  | MRS
  | MSR_REG
  | MSR_FLAGS
  | MUL_MLA
  | MULL_MLAL
  | SWP
  | Undefined
deriving DecidableEq

/-- `impl From<u32> for ArmFormat` from arm/lut.rs: the classifier used
to build the 4096-entry lookup table.  Note the `LDR_STR_HS_IMM` arm
repeats the `LDR_STR_HS_REG` condition and the `MULL_MLAL` expected
value omits bit 23, exactly as in the source. -/
def armFormatFromU32 (i : Nat) : ArmFormatLut :=
  if 0x0ff000f0 &&& i = 0x01200010 then ArmFormatLut.BX
  else if 0x0e000000 &&& i = 0x0a000000 then ArmFormatLut.B_BL
  else if 0x0fb000f0 &&& i = 0x01000090 then ArmFormatLut.SWP
  else if 0x0fc000f0 &&& i = 0x00000090 then ArmFormatLut.MUL_MLA
  else if 0x0f8000f0 &&& i = 0x00000090 then ArmFormatLut.MULL_MLAL
  else if 0x0fb000f0 &&& i = 0x01000000 then ArmFormatLut.MRS
  else if 0x0fb000f0 &&& i = 0x01200000 then ArmFormatLut.MSR_REG
  else if 0x0db00000 &&& i = 0x01200000 then ArmFormatLut.MSR_FLAGS
  else if 0x0c000000 &&& i = 0x04000000 then ArmFormatLut.LDR_STR
  else if 0x0e400090 &&& i = 0x00000090 then ArmFormatLut.LDR_STR_HS_REG
  else if 0x0e400090 &&& i = 0x00000090 then ArmFormatLut.LDR_STR_HS_IMM
  else if 0x0e000000 &&& i = 0x08000000 then ArmFormatLut.LDM_STM
  else if 0x0f000000 &&& i = 0x0f000000 then ArmFormatLut.SWI
  else if 0x0c000000 &&& i = 0x00000000 then ArmFormatLut.DP
  else ArmFormatLut.Undefined

/-- `arm_insn_hash` from arm/lut.rs: the 12-bit index. -/
def armInsnHash (insn : Nat) : Nat :=
  ((insn >>> 16) &&& 0xff0) ||| ((insn >>> 4) &&& 0x00f)

/-- The canonical pattern a hash is expanded to during `ARM_LUT`
construction: `((i & 0xff0) << 16) | ((i & 0x00f) << 4)`. -/
def armLutPattern (i : Nat) : Nat :=
  ((i &&& 0xff0) <<< 16) ||| ((i &&& 0x00f) <<< 4)

/-- The format a word receives through the lookup table:
`ARM_LUT[arm_insn_hash(w)].fmt`, where entry `i` holds
`ArmFormat::from(armLutPattern i)`. -/
def armLutFormat (w : Nat) : ArmFormatLut :=
  armFormatFromU32 (armLutPattern (armInsnHash w))

/-- The evident correspondence between the two snapshots of the format
enum, following the handler table of arm/lut.rs. -/
def lutFormatAsDecode : ArmFormatLut → ArmFormat
  | ArmFormatLut.BX => ArmFormat.BranchExchange
  | ArmFormatLut.B_BL => ArmFormat.BranchLink
  | ArmFormatLut.SWI => ArmFormat.SoftwareInterrupt
  | ArmFormatLut.DP => ArmFormat.DataProcessing
  | ArmFormatLut.LDR_STR => ArmFormat.SingleDataTransfer
  | ArmFormatLut.LDR_STR_HS_IMM => ArmFormat.HalfwordDataTransferImmediateOffset
  | ArmFormatLut.LDR_STR_HS_REG => ArmFormat.HalfwordDataTransferRegOffset
  | ArmFormatLut.LDM_STM => ArmFormat.BlockDataTransfer
  | ArmFormatLut.MRS => ArmFormat.MoveFromStatus
  | ArmFormatLut.MSR_REG => ArmFormat.MoveToStatus
  | ArmFormatLut.MSR_FLAGS => ArmFormat.MoveToFlags
  | ArmFormatLut.MUL_MLA => ArmFormat.Multiply
  | ArmFormatLut.MULL_MLAL => ArmFormat.MultiplyLong
  | ArmFormatLut.SWP => ArmFormat.SingleDataSwap
  | ArmFormatLut.Undefined => ArmFormat.Undefined

/-! ## Mode-0 tiled scanline rendering (src/core/gpu/mod.rs) -/

/-- The `index2d!` macro.  Modelled from the spec: row-major indexing
`w * y + x` (the macro definition lives outside the provided sources;
all use sites are consistent with this reading). -/
def index2d (x y w : Nat) : Nat := w * y + x

/-- u32 wrapping subtraction (release-mode `a - b` on `u32`). -/
def wrapSub32 (a b : Nat) : Nat := (a + 4294967296 - b % 4294967296) % 4294967296

/-- `PixelFormat` from palette.rs (4bpp or 8bpp tiles). -/
inductive PixelFormat where
  | BPP4
  | BPP8
deriving DecidableEq

/-- `vram.read_8`: byte read from VRAM. -/
def vramRead8 (sb : SysBusM) (a : Nat) : Nat := sb.vram a &&& 0xff

/-- `vram.read_16`: little-endian halfword read from VRAM. -/
def vramRead16 (sb : SysBusM) (a : Nat) : Nat :=
  (sb.vram a &&& 0xff) ||| ((sb.vram (a + 1) &&& 0xff) <<< 8)

/-- `palette_ram.read_16`: little-endian halfword read from palette
RAM; the value is the raw `Rgb15`. -/
def paletteRead16 (sb : SysBusM) (a : Nat) : Nat :=
  (sb.palette_ram a &&& 0xff) ||| ((sb.palette_ram (a + 1) &&& 0xff) <<< 8)

/-- `Rgb15::get_rgb24`.  Modelled from the spec: Rgb15 holds 5 bits per
channel (palette.rs is not among the sources); each channel is widened
to 8 bits, so the result is (0,0,0) exactly when the low 15 bits are
zero. -/
def getRgb24 (c : Nat) : Nat × Nat × Nat :=
  ((c &&& 31) <<< 3, ((c >>> 5) &&& 31) <<< 3, ((c >>> 10) &&& 31) <<< 3)

/-- `BgControl::char_block`. -/
def bgCharBlock (bgcnt : Nat) : Nat :=
  0x06000000 + ((bgcnt >>> 2) &&& 3) * 0x4000

/-- `BgControl::screen_block`. -/
def bgScreenBlock (bgcnt : Nat) : Nat :=
  0x06000000 + ((bgcnt >>> 8) &&& 31) * 0x800

/-- `BgControl::tile_format`. -/
def bgTileFormat (bgcnt : Nat) : Nat × PixelFormat :=
  if bgcnt.testBit 7 then (0x40, PixelFormat.BPP8) else (0x20, PixelFormat.BPP4)

/-- `BgControl::size_regular`. -/
def bgSizeRegular (bgcnt : Nat) : Nat × Nat :=
  if (bgcnt >>> 14) &&& 3 = 0 then (256, 256)
  else if (bgcnt >>> 14) &&& 3 = 1 then (512, 256)
  else if (bgcnt >>> 14) &&& 3 = 2 then (256, 512)
  else (512, 512)

/-- `TileMapEntry::tile_index` (bits 9..0). -/
def tmTileIndex (e : Nat) : Nat := e &&& 0x3ff

/-- `TileMapEntry::x_flip` (bit 10). -/
def tmXFlip (e : Nat) : Bool := e.testBit 10

/-- `TileMapEntry::y_flip` (bit 11). -/
def tmYFlip (e : Nat) : Bool := e.testBit 11

/-- `TileMapEntry::palette_bank` (bits 15..12). -/
def tmPaletteBank (e : Nat) : Nat := (e >>> 12) &&& 0xf

/-- The framebuffer (`pixeldata`), a 512 x 512 `Rgb15` surface indexed
through `index2d`. -/
def Fb : Type := Nat → Nat

/-- Framebuffer store (`self.pixeldata[i] = color`). -/
def fbSet (fb : Fb) (i v : Nat) : Fb :=
  fun j => if j = i then v else fb j

/-- `Gpu::read_pixel_index` from gpu/mod.rs.  The source computes
`ofs = addr - VRAM_ADDR`; `scanline_mode0` passes VRAM-relative
offsets here, so this u32 subtraction wraps around (debug builds would
panic) and the backing memory's address mask compensates; the wrapping
value is modelled as is. -/
def readPixelIndex (sb : SysBusM) (addr x y : Nat) (format : PixelFormat) : Nat :=
  let ofs := wrapSub32 addr 0x06000000
  match format with
  | PixelFormat.BPP4 =>
    let byte := vramRead8 sb (wrap32 (ofs + index2d (x / 2) y 4))
    if x &&& 1 ≠ 0 then byte >>> 4 else byte &&& 0xf
  | PixelFormat.BPP8 => vramRead8 sb (wrap32 (ofs + index2d x y 8))

/-- `Gpu::get_palette_color` from gpu/mod.rs. -/
def getPaletteColor (sb : SysBusM) (index paletteIndex : Nat) : Nat :=
  paletteRead16 sb (2 * index + 0x20 * paletteIndex)

/-- The guarded framebuffer store of `Gpu::scanline_mode0`:
`if color.get_rgb24() != (0, 0, 0) { self.pixeldata[idx] = color; }` —
the write condition tests the color value, not the palette index. -/
def mode0WritePixel (fb : Fb) (idx color : Nat) : Fb :=
  if getRgb24 color ≠ (0, 0, 0) then fbSet fb idx color else fb

/-- The inner `for tile_px in start_tile_x..=7` loop of
`Gpu::scanline_mode0`: look up the palette index of each pixel, fetch
its color, and write it to the framebuffer unless the color is black
(`color.get_rgb24() != (0, 0, 0)` is the only write condition).
Returns the framebuffer, the advanced `screen_x`, and whether the
`screen_x == 240` early return fired. -/
def mode0PxLoop (sb : SysBusM) (tileAddr entry : Nat) (fmt : PixelFormat)
    (screenY bgY : Nat) : Nat → Nat → Nat → Fb → Fb × Nat × Bool
  | 0, _tilePx, screenX, fb => (fb, screenX, false)
  | Nat.succ n, tilePx, screenX, fb =>
    if tilePx > 7 then (fb, screenX, false)
    else
      let tilePy := bgY % 8
      let index := readPixelIndex sb tileAddr
        (if tmXFlip entry then 7 - tilePx else tilePx)
        (if tmYFlip entry then 7 - tilePy else tilePy) fmt
      let paletteBank :=
        match fmt with
        | PixelFormat.BPP4 => tmPaletteBank entry
        | PixelFormat.BPP8 => 0
      let color := getPaletteColor sb index paletteBank
      let fb := mode0WritePixel fb (index2d screenX screenY 512) color
      let screenX := screenX + 1
      if 240 = screenX then (fb, screenX, true)
      else mode0PxLoop sb tileAddr entry fmt screenY bgY n (tilePx + 1) screenX fb

/-- The outer `for t in 0..32` loop of `Gpu::scanline_mode0`: fetch the
tile-map entry, render the tile row, and step to the next screen
block at the 32-tile boundary for 512-pixel-wide backgrounds. -/
def mode0TilesLoop (sb : SysBusM) (tilemapBase tilesetBase tileSize : Nat)
    (fmt : PixelFormat) (bgWidth seRow seColumn screenY bgY : Nat) :
    Nat → Nat → Nat → Nat → Nat → Fb → Fb
  | 0, _t, _screenBlock, _startTileX, _screenX, fb => fb
  | Nat.succ n, t, screenBlock, startTileX, screenX, fb =>
    let mapAddr := tilemapBase + 0x800 * screenBlock
      + 2 * index2d ((seRow + t) % 32) seColumn 32
    let entry := vramRead16 sb (wrapSub32 mapAddr 0x06000000)
    let tileAddr := tilesetBase + tmTileIndex entry * tileSize
    let r := mode0PxLoop sb tileAddr entry fmt screenY bgY 8 startTileX screenX fb
    if r.snd.snd then r.fst
    else
      let startTileX := 0
      let screenBlock :=
        if seRow + t = 31 ∧ bgWidth = 512 then screenBlock ^^^ 1 else screenBlock
      mode0TilesLoop sb tilemapBase tilesetBase tileSize fmt bgWidth seRow seColumn
        screenY bgY n (t + 1) screenBlock startTileX r.snd.fst r.fst

/-- `Gpu::scanline_mode0` from gpu/mod.rs, for one background:
`bgcnt`, `bghofs`, `bgvofs` are that background's registers and
`currentScanline` the scanline being rendered into `fb`. -/
def scanlineMode0 (bgcnt bghofs bgvofs currentScanline : Nat)
    (sb : SysBusM) (fb : Fb) : Fb :=
  let hOfs := bghofs
  let vOfs := bgvofs
  let tilesetBase := bgCharBlock bgcnt - 0x06000000
  let tilemapBase := bgScreenBlock bgcnt - 0x06000000
  let tf := bgTileFormat bgcnt
  let size := bgSizeRegular bgcnt
  let bgWidth := size.fst
  let bgHeight := size.snd
  let screenY := currentScanline
  let screenX := 0
  let bgX := (screenX + hOfs) % bgWidth
  let bgY := (screenY + vOfs) % bgHeight
  let screenBlock :=
    if bgWidth = 256 ∧ bgHeight = 256 then 0
    else if bgWidth = 512 ∧ bgHeight = 256 then bgX / 256
    else if bgWidth = 256 ∧ bgHeight = 512 then bgY / 256
    else index2d (bgX / 256) (bgY / 256) 2
  let seRow := (bgX / 8) % 32
  let seColumn := (bgY / 8) % 32
  let startTileX := bgX % 8
  mode0TilesLoop sb tilemapBase tilesetBase tf.fst tf.snd bgWidth seRow seColumn
    screenY bgY 32 0 screenBlock startTileX screenX fb

/-! ## States and invariants used by the theorems -/

/-- Expected DISPSTAT bit 1 (H-blank status) per GPU state. -/
def gpuStateBit1 : GpuState → Bool
  | GpuState.HBlank => true
  | _ => false

/-- Expected DISPSTAT bit 0 (V-blank status) per GPU state. -/
def gpuStateBit0 : GpuState → Bool
  | GpuState.VBlank => true
  | _ => false

/-- The DISPSTAT blank-bit invariant: bit 1 (H-blank status) is set
exactly in state HBlank, bit 0 (V-blank status) exactly in VBlank. -/
def GpuInv (g : GpuM) : Prop :=
  g.dispstat.testBit 1 = gpuStateBit1 g.state ∧
  g.dispstat.testBit 0 = gpuStateBit0 g.state

/-- A sequence of GPU step transitions. -/
def gpuRun (cs : List Nat) (g : GpuM) : GpuM :=
  cs.foldl gpuAdvance g

/-- A concrete I/O state: GPU at reset (DISPCNT = 0x80), interrupt
controller cleared, zero fallback memory. -/
def ioResetState : IoS :=
  { gpu := GpuM.reset,
    intc := { interrupt_enable := 0, interrupt_flags := 0,
              interrupt_master_enable := false },
    mem := fun _ => 0 }

/-- An all-zero bus. -/
def sbZero : SysBusM :=
  { vram := fun _ => 0, palette_ram := fun _ => 0, mem := fun _ => 0 }

/-- A DMA controller whose channel 0 is enabled with timing 1
(V-blank), repeat off, word count 0, start_cycles 0 (the value latched
when the control register is written before any controller step). -/
def dmaVblankTimed : DmaController :=
  { DmaController.new with
    ch0 := { DmaController.new.ch0 with ctrl := 0x9000 } }

/-- A GBA machine state for the C4 counterexample: GPU at reset except
that DISPSTAT has the H-blank IRQ enable bit (bit 4) set, all DMA
channels disabled, cleared interrupt controller with IME on and all
sources enabled. -/
def gbaHblankIrqReady (cpsrI : Bool) : GbaM :=
  { gpu := { GpuM.reset with dispstat := 0x10 },
    dmac := DmaController.new,
    sb := sbZero,
    intc := { interrupt_enable := 0x3fff, interrupt_flags := 0,
              interrupt_master_enable := true },
    cpsrI := cpsrI,
    inIrqException := false }

/-- `FbPreserves fb fb2`: every cell of `fb2` either kept its value
from `fb` or holds a color that is not RGB24-black. -/
def FbPreserves (fb fb2 : Fb) : Prop :=
  ∀ i, fb2 i = fb i ∨ getRgb24 (fb2 i) ≠ (0, 0, 0)

/-- A bus whose VRAM is all zero (every tile-map entry and every
palette index is 0) while every palette byte is 0xff, so palette color
0 reads as the non-black 0xffff. -/
def sbWhitePalette : SysBusM :=
  { vram := fun _ => 0, palette_ram := fun _ => 0xff, mem := fun _ => 0 }

/-! ## Theorems -/

/-- C1 counterexample: from the reset state (HDraw, scanline 0, 0
accumulated cycles) a step of 960 cycles does NOT move the GPU to
HBlank — `Gpu::step` requires `cycles > CYCLES_HDRAW` strictly, so the
GPU is still in HDraw.  Moreover a step of 961 cycles that does reach
HBlank already shows `current_scanline = 1`: the scanline counter is
incremented at the HDraw timeout (the HDraw-to-HBlank transition), not
at the HBlank timeout as the claim states. -/
theorem gpu_step_960_not_hblank :
    GpuM.reset.state = GpuState.HDraw ∧
    GpuM.reset.current_scanline = 0 ∧
    GpuM.reset.cycles = 0 ∧
    (gpuAdvance GpuM.reset 960).state ≠ GpuState.HBlank ∧
    (gpuAdvance GpuM.reset 960).state = GpuState.HDraw ∧
    (gpuAdvance GpuM.reset 961).state = GpuState.HBlank ∧
    (gpuAdvance GpuM.reset 961).current_scanline = 1 := by
  decide

set_option maxRecDepth 10000 in
/-- C1 amended: one extra cycle is needed to cross each phase boundary
(`Gpu::step` compares with strict `>`), and `current_scanline` is
incremented at the HDraw timeout.  From reset, step(961) enters HBlank
with scanline already 1; step(272) then returns to HDraw with scanline
1 and one residual cycle; from there each (960, 272) step pair advances
exactly one scanline; at the HDraw timeout of scanline 159 the GPU
enters VBlank directly with `current_scanline = 160` (the last visible
scanline's HBlank phase is skipped); a further 83776-cycle step leaves
VBlank, resetting `current_scanline` to 0 in state HDraw. -/
theorem gpu_scanline_progression :
    (gpuAdvance GpuM.reset 961).state = GpuState.HBlank ∧
    (gpuAdvance GpuM.reset 961).current_scanline = 1 ∧
    (gpuAdvance (gpuAdvance GpuM.reset 961) 272).state = GpuState.HDraw ∧
    (gpuAdvance (gpuAdvance GpuM.reset 961) 272).current_scanline = 1 ∧
    (gpuAdvance (gpuAdvance GpuM.reset 961) 272).cycles = 1 ∧
    ((List.range 159).all fun k =>
      let g := gpuScanlinePair^[k] (gpuAdvance (gpuAdvance GpuM.reset 961) 272)
      (g.state == GpuState.HDraw) && (g.current_scanline == k + 1)) = true ∧
    (gpuAdvance (gpuScanlinePair^[158] (gpuAdvance (gpuAdvance GpuM.reset 961) 272)) 960).state
      = GpuState.VBlank ∧
    (gpuAdvance (gpuScanlinePair^[158] (gpuAdvance (gpuAdvance GpuM.reset 961) 272)) 960).current_scanline
      = 160 ∧
    (gpuAdvance (gpuAdvance (gpuScanlinePair^[158] (gpuAdvance (gpuAdvance GpuM.reset 961) 272)) 960) 83776).state
      = GpuState.HDraw ∧
    (gpuAdvance (gpuAdvance (gpuScanlinePair^[158] (gpuAdvance (gpuAdvance GpuM.reset 961) 272)) 960) 83776).current_scanline
      = 0 := by
  decide

/-! ### DISPSTAT blank-bit invariant of the GPU state machine (C10) -/

theorem setHblank_true_bit1 (d : Nat) :
    (dispstatSetHblank d true).testBit 1 = true := by
  simp [dispstatSetHblank, Nat.testBit_lor,
    (by decide : Nat.testBit 2 1 = true)]

theorem setHblank_true_bit0 (d : Nat) :
    (dispstatSetHblank d true).testBit 0 = d.testBit 0 := by
  simp [dispstatSetHblank, Nat.testBit_lor,
    (by decide : Nat.testBit 2 0 = false)]

theorem setVblank_true_bit0 (d : Nat) :
    (dispstatSetVblank d true).testBit 0 = true := by
  simp [dispstatSetVblank, Nat.testBit_lor,
    (by decide : Nat.testBit 1 0 = true)]

theorem setVblank_true_bit1 (d : Nat) :
    (dispstatSetVblank d true).testBit 1 = d.testBit 1 := by
  simp [dispstatSetVblank, Nat.testBit_lor,
    (by decide : Nat.testBit 1 1 = false)]

theorem clearHV_bit0 (d : Nat) :
    (dispstatSetVblank (dispstatSetHblank d false) false).testBit 0 = false := by
  simp [dispstatSetVblank, dispstatSetHblank, Nat.testBit_land,
    (by decide : Nat.testBit 65534 0 = false)]

theorem clearHV_bit1 (d : Nat) :
    (dispstatSetVblank (dispstatSetHblank d false) false).testBit 1 = false := by
  simp [dispstatSetVblank, dispstatSetHblank, Nat.testBit_land,
    (by decide : Nat.testBit 65533 1 = false)]

theorem setVcount_bit0 (d : Nat) (b : Bool) :
    (dispstatSetVcount d b).testBit 0 = d.testBit 0 := by
  cases b <;>
    simp [dispstatSetVcount, Nat.testBit_lor, Nat.testBit_land,
      (by decide : Nat.testBit 4 0 = false),
      (by decide : Nat.testBit 65531 0 = true)]

theorem setVcount_bit1 (d : Nat) (b : Bool) :
    (dispstatSetVcount d b).testBit 1 = d.testBit 1 := by
  cases b <;>
    simp [dispstatSetVcount, Nat.testBit_lor, Nat.testBit_land,
      (by decide : Nat.testBit 4 1 = false),
      (by decide : Nat.testBit 65531 1 = true)]




theorem gpuVcountUpdate_state (g : GpuM) :
    (gpuVcountUpdate g).state = g.state := by
  unfold gpuVcountUpdate
  split <;> rfl

theorem gpuVcountUpdate_bit0 (g : GpuM) :
    (gpuVcountUpdate g).dispstat.testBit 0 = g.dispstat.testBit 0 := by
  unfold gpuVcountUpdate
  split
  · exact setVcount_bit0 ..
  · rfl

theorem gpuVcountUpdate_bit1 (g : GpuM) :
    (gpuVcountUpdate g).dispstat.testBit 1 = g.dispstat.testBit 1 := by
  unfold gpuVcountUpdate
  split
  · exact setVcount_bit1 ..
  · rfl

theorem gpuVcountUpdate_inv (g : GpuM) (h : GpuInv g) :
    GpuInv (gpuVcountUpdate g) := by
  obtain ⟨h1, h0⟩ := h
  refine ⟨?_, ?_⟩
  · rw [gpuVcountUpdate_bit1, gpuVcountUpdate_state]
    exact h1
  · rw [gpuVcountUpdate_bit0, gpuVcountUpdate_state]
    exact h0

theorem gpuPhase_inv (g : GpuM) (irqs : Nat) (h : GpuInv g) :
    GpuInv (gpuPhase g irqs).fst := by
  obtain ⟨dc, ds, b0, b1, b2, b3, bc, ba, cy, st, sl⟩ := g
  obtain ⟨h1, h0⟩ := h
  simp only [GpuInv, gpuStateBit0, gpuStateBit1] at h1 h0
  cases st <;>
    simp only [gpuPhase] <;>
    split_ifs <;>
    refine ⟨?_, ?_⟩ <;>
    simp only [GpuInv, gpuStateBit0, gpuStateBit1, setHblank_true_bit0,
      setHblank_true_bit1, setVblank_true_bit0, setVblank_true_bit1,
      clearHV_bit0, clearHV_bit1] <;>
    first
    | rfl
    | exact h1
    | exact h0

theorem gpuStep_preserves_inv (g : GpuM) (c i : Nat) (h : GpuInv g) :
    GpuInv (GpuM.step g c i).fst := by
  obtain ⟨h1, h0⟩ := h
  exact gpuPhase_inv _ _ (gpuVcountUpdate_inv _ ⟨h1, h0⟩)


theorem gpuRun_inv (cs : List Nat) (g : GpuM) (h : GpuInv g) :
    GpuInv (gpuRun cs g) := by
  induction cs generalizing g with
  | nil => exact h
  | cons c cs ih =>
    exact ih (gpuAdvance g c) (gpuStep_preserves_inv g c 0 h)

theorem gpuStateBit1_eq_iff (st : GpuState) :
    gpuStateBit1 st = true ↔ st = GpuState.HBlank := by
  cases st <;> simp [gpuStateBit1]

theorem gpuStateBit0_eq_iff (st : GpuState) :
    gpuStateBit0 st = true ↔ st = GpuState.VBlank := by
  cases st <;> simp [gpuStateBit0]

/-- C10: along every sequence of GPU step transitions from the reset
state, DISPSTAT bit 1 (H-blank status) is set exactly when the state
machine is in HBlank and bit 0 (V-blank status) exactly when it is in
VBlank (so every re-entry into HDraw has both bits clear); and a bus
write to DISPSTAT (I/O offset 4) ORs the written value into the
register, as a distinct operation. -/
theorem gpu_dispstat_tracks_state :
    (∀ cs : List Nat,
      ((gpuRun cs GpuM.reset).dispstat.testBit 1 = true ↔
        (gpuRun cs GpuM.reset).state = GpuState.HBlank) ∧
      ((gpuRun cs GpuM.reset).dispstat.testBit 0 = true ↔
        (gpuRun cs GpuM.reset).state = GpuState.VBlank)) ∧
    (∀ (s : IoS) (v : Nat),
      (ioWrite16 s 4 v).gpu.dispstat = s.gpu.dispstat ||| v) := by
  constructor
  · intro cs
    obtain ⟨h1, h0⟩ := gpuRun_inv cs GpuM.reset ⟨by decide, by decide⟩
    constructor
    · rw [h1]
      exact gpuStateBit1_eq_iff _
    · rw [h0]
      exact gpuStateBit0_eq_iff _
  · intro s v
    rfl

/-! ### I/O register write/read round trips (C6, C7) -/


/-- C6 counterexample: DISPCNT (and likewise DISPSTAT, BG0..3CNT) is a
R/W non-side-effectful 16-bit register, yet writing X = 0 at reset
(DISPCNT = 0x80) and reading back returns 0x80, not 0, because the
write ORs the value into the register; and writing 5 to IME reads back
1. -/
theorem ioreg_write_read_counterexample :
    ioRead16 (ioWrite16 ioResetState 0 0) 0 ≠ 0 ∧
    ioRead16 (ioWrite16 ioResetState 0 0) 0 = 0x80 ∧
    ioRead16 (ioWrite16 ioResetState 0x208 5) 0x208 ≠ 5 ∧
    ioRead16 (ioWrite16 ioResetState 0x208 5) 0x208 = 1 := by
  decide

/-- C6 amended: write-then-read returns the written value for the
plain-assignment registers BLDCNT, BLDALPHA and IE, for every prior
state; the DISPCNT/DISPSTAT/BG0CNT family ORs the written value into
the register, so the read-back is `old ||| X`; IME stores and reads
back the boolean `X != 0`. -/
theorem ioreg_write_read_roundtrip (s : IoS) (v : Nat) :
    ioRead16 (ioWrite16 s 0x50 v) 0x50 = v ∧
    ioRead16 (ioWrite16 s 0x52 v) 0x52 = v ∧
    ioRead16 (ioWrite16 s 0x200 v) 0x200 = v ∧
    ioRead16 (ioWrite16 s 0 v) 0 = s.gpu.dispcnt ||| v ∧
    ioRead16 (ioWrite16 s 4 v) 4 = s.gpu.dispstat ||| v ∧
    ioRead16 (ioWrite16 s 8 v) 8 = s.gpu.bgcnt0 ||| v ∧
    ioRead16 (ioWrite16 s 0x208 v) 0x208 = (if (v != 0 : Bool) then 1 else 0) := by
  refine ⟨rfl, rfl, rfl, rfl, rfl, rfl, rfl⟩

/-- C7: `IoRegs::write_8` at an odd address preserves the even byte,
but at an even address it zeroes the odd byte: with BLDCNT = 0xABCD,
an 8-bit write of 0x11 to offset 0x50 leaves 0x0011 (the even branch
computes `upper = t << 8` and then writes `(upper << 8) | lower`,
wrapping the u16 to 0), where the claim requires 0xAB11.  The odd
address 0x51 behaves as claimed. -/
theorem ioreg_write8_even_clobbers :
    (ioWrite8 { ioResetState with
        gpu := { GpuM.reset with bldcnt := 0xABCD } } 0x50 0x11).gpu.bldcnt
      = 0x0011 ∧
    (ioWrite8 { ioResetState with
        gpu := { GpuM.reset with bldcnt := 0xABCD } } 0x50 0x11).gpu.bldcnt
      ≠ 0xAB11 ∧
    (ioWrite8 { ioResetState with
        gpu := { GpuM.reset with bldcnt := 0xABCD } } 0x51 0x11).gpu.bldcnt
      = 0x11CD := by
  decide

/-! ### DMA triggering (C3) and peripheral-step IRQ folding (C4) -/



/-- C3: a V-blank-timed (timing = 1) enabled channel transfers during
an ordinary cycle-tick `DmaController::step` — after a 3-cycle step its
transfer has run and cleared the enable bit (`DmaChannel::update` tests
only `start_cycles == 0 && cycles > start_cycles + 2`, never the timing
field), contradicting the claim that such channels transfer only on
the V-blank notification.  The notification path itself behaves as
specified: `notify_vblank` transfers the channel, `notify_hblank`
(timing 2) leaves it untouched. -/
theorem dma_step_triggers_vblank_timed_channel :
    ctrlIsEnabled dmaVblankTimed.ch0.ctrl = true ∧
    ctrlTiming dmaVblankTimed.ch0.ctrl = 1 ∧
    ctrlIsEnabled (DmaController.step dmaVblankTimed 3 sbZero 0).fst.ch0.ctrl
      = false ∧
    ctrlIsEnabled (DmaController.notifyVblank dmaVblankTimed sbZero 0).fst.ch0.ctrl
      = false ∧
    (DmaController.notifyHblank dmaVblankTimed sbZero 0).fst.ch0
      = dmaVblankTimed.ch0 := by
  decide


/-- C4 counterexample: a 961-cycle peripheral step makes the GPU enter
HBlank and raise the H-blank IRQ (bit 1).  With the CPSR I bit clear
the bit is recorded in the interrupt controller's flags; with the I bit
set, `emulate_peripherals` skips `request_irqs` entirely and the raised
bit is lost — the flags stay 0, so the bits are NOT recorded "in every
case". -/
theorem peripheral_irq_lost_when_masked :
    (peripheralsAdvance (fun _ i => i) (gbaHblankIrqReady true) 961).snd.snd.snd
      = 2 ∧
    (emulatePeripherals (fun _ i => i) (gbaHblankIrqReady false) 961).intc.interrupt_flags
      = 2 ∧
    (emulatePeripherals (fun _ i => i) (gbaHblankIrqReady true) 961).intc.interrupt_flags
      = 0 := by
  refine ⟨rfl, rfl, rfl⟩

theorem lor_land_self (a b : Nat) : (a ||| b) &&& a = a := by
  apply Nat.eq_of_testBit_eq
  intro k
  rw [Nat.testBit_land, Nat.testBit_lor]
  cases h : a.testBit k <;> simp [h]

/-- C4 amended: `emulate_peripherals` advances timers, GPU and DMA in
that fixed order, accumulating raised IRQ bits; after all peripherals
have advanced, the accumulated bits are folded into the interrupt
controller's flags and checked for delivery — but only when the CPSR I
bit is clear.  When the I bit is set the step's raised bits are
discarded (controller untouched, no exception entry).  Folding never
drops previously pending flag bits. -/
theorem peripheral_irq_folding (timersStep : Nat → Nat → Nat) (g : GbaM)
    (cycles : Nat) :
    (emulatePeripherals timersStep g cycles).gpu
      = (peripheralsAdvance timersStep g cycles).fst ∧
    (emulatePeripherals timersStep g cycles).dmac
      = (peripheralsAdvance timersStep g cycles).snd.fst ∧
    (emulatePeripherals timersStep g cycles).intc.interrupt_flags
      = (if g.cpsrI then g.intc.interrupt_flags
         else g.intc.interrupt_flags |||
           (peripheralsAdvance timersStep g cycles).snd.snd.snd) ∧
    (emulatePeripherals timersStep g cycles).inIrqException
      = (g.inIrqException ||
         (!g.cpsrI &&
          IntC.irqPending
            (IntC.requestIrqs g.intc
              (peripheralsAdvance timersStep g cycles).snd.snd.snd))) ∧
    (emulatePeripherals timersStep g cycles).intc.interrupt_flags
        &&& g.intc.interrupt_flags
      = g.intc.interrupt_flags := by
  have hself : ∀ a : Nat, a &&& a = a := by
    intro a
    apply Nat.eq_of_testBit_eq
    intro k
    rw [Nat.testBit_land]
    cases h : a.testBit k <;> simp [h]
  unfold emulatePeripherals
  cases hI : g.cpsrI
  case true =>
    have hcond : ¬ (¬ g.cpsrI = true) := by simp [hI]
    simp only [if_neg hcond]
    exact ⟨rfl, rfl, by simp [hI], by simp [hI], hself _⟩
  case false =>
    have hcond : ¬ g.cpsrI = true := by simp [hI]
    simp only [if_pos hcond]
    by_cases hp : IntC.irqPending
        (IntC.requestIrqs g.intc
          (peripheralsAdvance timersStep g cycles).snd.snd.snd) = true
    · simp only [if_pos hp]
      exact ⟨rfl, rfl, by simp [hI, IntC.requestIrqs], by simp [hI, hp],
        lor_land_self ..⟩
    · simp only [if_neg hp]
      exact ⟨rfl, rfl, by simp [hI, IntC.requestIrqs], by simp [hI, hp],
        lor_land_self ..⟩

/-! ### Barrel shifter LSR edge cases (C5) and ALU ADD flags (C9) -/

/-- C5: LSR by exactly 32 is only handled for the immediate-field
shift-amount source.  With a register-supplied amount
(`immediate = false`) the `0 | 32` arm returns the value unchanged and
leaves `carry_out` untouched: for value 0x80000000 the code yields
(0x80000000, old carry) where the claim (and the ARM7TDMI datasheet
lines quoted in the source comment) require (0, bit 31) = (0, true).
The immediate form and the greater-than-32 cases behave as claimed;
`Core::register_shift` reaches the faulty arm through
`ShiftRegisterBy::ByRegister`. -/
theorem lsr_32_register_form_bug :
    barrelShiftOp BarrelShiftOpCode.LSR 0x80000000 32 false false false
      = (0x80000000, false) ∧
    barrelShiftOp BarrelShiftOpCode.LSR 0x80000000 32 false true false
      = (0, true) ∧
    registerShift (fun r => if r = 0 then 0x80000000 else if r = 1 then 32 else 0)
      false false
      { reg := 0, shift_by := ShiftRegisterBy.ByRegister 1,
        bs_op := BarrelShiftOpCode.LSR, added := none }
      = some (0x80000000, false) ∧
    barrelShiftOp BarrelShiftOpCode.LSR 0x80000000 33 false false false
      = (0, false) ∧
    barrelShiftOp BarrelShiftOpCode.LSR 0x80000000 33 false true false
      = (0, false) := by
  decide

/-- C9: for ADD, `Core::alu_flags` sets C exactly to the unsigned
carry-out of the 32-bit addition and V exactly to signed overflow (the
wrapped result disagrees with the exact signed sum); at
op1 = 0x7FFF_FFFF, op2 = 1 the result is 0x8000_0000 with N=1, Z=0,
C=0, V=1. -/
theorem alu_add_flags_spec (a b : Nat) (bs cC vC : Bool)
    (ha : a < 4294967296) (hb : b < 4294967296) :
    ((aluFlags AluOpCode.ADD a b bs cC vC).c = decide (4294967296 ≤ a + b)) ∧
    ((aluFlags AluOpCode.ADD a b bs cC vC).v = true ↔
      toInt32 (wrap32 (a + b)) ≠ toInt32 a + toInt32 b) ∧
    (aluFlags AluOpCode.ADD 2147483647 1 false false false
      = { result := some 2147483648, n := true, z := false,
          c := false, v := true }) := by
  refine ⟨?_, ?_, ?_⟩
  · show decide (wrap32 (a + b) < a ∨ wrap32 (a + b) < b)
      = decide (4294967296 ≤ a + b)
    rw [decide_eq_decide]
    unfold wrap32
    omega
  · show addOverflows a b = true ↔
      toInt32 (wrap32 (a + b)) ≠ toInt32 a + toInt32 b
    unfold addOverflows
    rw [decide_eq_true_eq]
    unfold toInt32 wrap32
    split_ifs <;> omega
  · decide

theorem alu_add_flags_spec_witness :
    (5 : Nat) < 4294967296 ∧ (7 : Nat) < 4294967296 ∧
    (((aluFlags AluOpCode.ADD 5 7 false false false).c
        = decide (4294967296 ≤ 5 + 7)) ∧
      ((aluFlags AluOpCode.ADD 5 7 false false false).v = true ↔
        toInt32 (wrap32 (5 + 7)) ≠ toInt32 5 + toInt32 7) ∧
      (aluFlags AluOpCode.ADD 2147483647 1 false false false
        = { result := some 2147483648, n := true, z := false,
            c := false, v := true })) :=
  ⟨by decide, by decide,
    alu_add_flags_spec 5 7 false false false (by decide) (by decide)⟩

/-! ### ARM decoder against the spec table (C2) -/

theorem land_eq_testBit {w m e : Nat} (h : w &&& m = e) (k : Nat) :
    (w.testBit k && m.testBit k) = e.testBit k := by
  have hk := congrArg (fun n => n.testBit k) h
  simpa [Nat.testBit_land] using hk

/-- A masked-pattern test fails when the word has a 1 at a masked bit
position where the expected value has 0. -/
theorem refuteMaskOne {w : Nat} (m e k : Nat) (hm : m.testBit k = true)
    (he : e.testBit k = false) (hw : w.testBit k = true) : ¬ (w &&& m = e) := by
  intro h
  have hb := land_eq_testBit h k
  rw [hm, he, hw] at hb
  simp at hb

/-- A masked-pattern test fails when the expected value has a 1 at a
position outside the mask. -/
theorem refuteMaskOut {w : Nat} (m e k : Nat) (hm : m.testBit k = false)
    (he : e.testBit k = true) : ¬ (w &&& m = e) := by
  intro h
  have hb := land_eq_testBit h k
  rw [hm, he] at hb
  simp at hb

/-- `ArmInstruction::decode` agrees with the ordered mask table of the
spec on every 32-bit word: the only textual difference is that the
decoder tests the B/BL row right after BX, and that row is disjoint
from every row it jumps ahead of. -/
theorem armDecodeFormat_eq_spec (w : Nat) : armDecodeFormat w = armSpecFormat w := by
  unfold armDecodeFormat armSpecFormat
  by_cases hbl : 0x0e000000 &&& w = 0x0a000000
  · have h27 : w.testBit 27 = true := by
      have hb := land_eq_testBit ((Nat.land_comm _ _).trans hbl) 27
      rw [(by decide : Nat.testBit 0x0e000000 27 = true),
        (by decide : Nat.testBit 0x0a000000 27 = true)] at hb
      simpa using hb
    have h25 : w.testBit 25 = true := by
      have hb := land_eq_testBit ((Nat.land_comm _ _).trans hbl) 25
      rw [(by decide : Nat.testBit 0x0e000000 25 = true),
        (by decide : Nat.testBit 0x0a000000 25 = true)] at hb
      simpa using hb
    have hbl2 : 0x0e000000 &&& w = 0x0a000000 := hbl
    have hbx : ¬ (0x0ffffff0 &&& w = 0x012fff10) := by
      rw [Nat.land_comm]
      exact refuteMaskOne _ _ 27 (by decide) (by decide) h27
    have hund : ¬ (0xe0000010 &&& w = 0x06000000) := by
      rw [Nat.land_comm]
      exact refuteMaskOut _ _ 26 (by decide) (by decide)
    have hswp : ¬ (0x0fb00ff0 &&& w = 0x01000090) := by
      rw [Nat.land_comm]
      exact refuteMaskOne _ _ 27 (by decide) (by decide) h27
    have hmul : ¬ (0x0fc000f0 &&& w = 0x00000090) := by
      rw [Nat.land_comm]
      exact refuteMaskOne _ _ 27 (by decide) (by decide) h27
    have hmull : ¬ (0x0f8000f0 &&& w = 0x00800090) := by
      rw [Nat.land_comm]
      exact refuteMaskOne _ _ 27 (by decide) (by decide) h27
    have hmrs : ¬ (0x0fbf0fff &&& w = 0x010f0000) := by
      rw [Nat.land_comm]
      exact refuteMaskOne _ _ 27 (by decide) (by decide) h27
    have hmsr : ¬ (0x0fbffff0 &&& w = 0x0129f000) := by
      rw [Nat.land_comm]
      exact refuteMaskOne _ _ 27 (by decide) (by decide) h27
    have hmsrf : ¬ (0x0dbff000 &&& w = 0x0128f000) := by
      rw [Nat.land_comm]
      exact refuteMaskOne _ _ 27 (by decide) (by decide) h27
    have hsdt : ¬ (0x0c000000 &&& w = 0x04000000) := by
      rw [Nat.land_comm]
      exact refuteMaskOne _ _ 27 (by decide) (by decide) h27
    have hhsr : ¬ (0x0e400f90 &&& w = 0x00000090) := by
      rw [Nat.land_comm]
      exact refuteMaskOne _ _ 27 (by decide) (by decide) h27
    have hhsi : ¬ (0x0e400090 &&& w = 0x00400090) := by
      rw [Nat.land_comm]
      exact refuteMaskOne _ _ 27 (by decide) (by decide) h27
    have hldm : ¬ (0x0e000000 &&& w = 0x08000000) := by
      rw [Nat.land_comm]
      exact refuteMaskOne _ _ 25 (by decide) (by decide) h25
    rw [if_neg hbx, if_pos hbl, if_neg hbx, if_neg hund, if_neg hswp,
      if_neg hmul, if_neg hmull, if_neg hmrs, if_neg hmsr, if_neg hmsrf,
      if_neg hsdt, if_neg hhsr, if_neg hhsi, if_neg hldm, if_pos hbl2]
  · simp only [if_neg hbl]

/-- C2: at word 0x00400090 (a halfword-transfer-immediate pattern, its
own canonical LUT pattern) the 4096-entry lookup table classifies the
word as MULL_MLAL while the direct decoder — which provably follows the
spec's ordered mask table on every word — yields
HalfwordDataTransferImmediateOffset.  The table classifier's MULL row
omits bit 23 from its expected value and its HS_IMM row repeats the
HS_REG condition, so the two classifiers disagree and the table never
produces the halfword-immediate format. -/
theorem arm_lut_decoder_divergence :
    armLutFormat 0x00400090 = ArmFormatLut.MULL_MLAL ∧
    armDecodeFormat 0x00400090 = ArmFormat.HalfwordDataTransferImmediateOffset ∧
    lutFormatAsDecode (armLutFormat 0x00400090) ≠ armDecodeFormat 0x00400090 ∧
    (∀ w : Nat, armDecodeFormat w = armSpecFormat w) ∧
    armSpecFormat 0x00400090 = ArmFormat.HalfwordDataTransferImmediateOffset := by
  refine ⟨by decide, by decide, by decide, armDecodeFormat_eq_spec, by decide⟩

/-! ### Mode-0 background transparency (C8) -/


theorem fbPreserves_refl (fb : Fb) : FbPreserves fb fb :=
  fun _ => Or.inl rfl

theorem fbPreserves_trans {a b c : Fb}
    (h1 : FbPreserves a b) (h2 : FbPreserves b c) : FbPreserves a c := by
  intro i
  rcases h2 i with h | h
  · rw [h]
    exact h1 i
  · exact Or.inr h

theorem mode0WritePixel_preserves (fb : Fb) (idx color : Nat) :
    FbPreserves fb (mode0WritePixel fb idx color) := by
  unfold mode0WritePixel
  split
  · intro i
    unfold fbSet
    by_cases hi : i = idx
    · refine Or.inr ?_
      simpa [hi] using ‹getRgb24 color ≠ (0, 0, 0)›
    · exact Or.inl (by simp [hi])
  · exact fbPreserves_refl fb

theorem mode0PxLoop_preserves (sb : SysBusM) (tA e : Nat) (fmt : PixelFormat)
    (sY bY : Nat) :
    ∀ (fuel tilePx screenX : Nat) (fb : Fb),
      FbPreserves fb (mode0PxLoop sb tA e fmt sY bY fuel tilePx screenX fb).fst := by
  intro fuel
  induction fuel with
  | zero =>
    intro _ _ fb
    exact fbPreserves_refl fb
  | succ n ih =>
    intro tilePx screenX fb
    simp only [mode0PxLoop]
    by_cases h7 : tilePx > 7
    · simp only [if_pos h7]
      exact fbPreserves_refl fb
    · simp only [if_neg h7]
      split
      · exact mode0WritePixel_preserves _ _ _
      · exact fbPreserves_trans (mode0WritePixel_preserves _ _ _) (ih _ _ _)

theorem mode0TilesLoop_preserves (sb : SysBusM) (tmB tsB tSz : Nat)
    (fmt : PixelFormat) (bgW seR seC sY bY : Nat) :
    ∀ (fuel t screenBlock startTileX screenX : Nat) (fb : Fb),
      FbPreserves fb
        (mode0TilesLoop sb tmB tsB tSz fmt bgW seR seC sY bY
          fuel t screenBlock startTileX screenX fb) := by
  intro fuel
  induction fuel with
  | zero =>
    intro _ _ _ _ fb
    exact fbPreserves_refl fb
  | succ n ih =>
    intro t screenBlock startTileX screenX fb
    simp only [mode0TilesLoop]
    split
    · exact mode0PxLoop_preserves _ _ _ _ _ _ _ _ _ _
    · exact fbPreserves_trans (mode0PxLoop_preserves _ _ _ _ _ _ _ _ _ _)
        (ih _ _ _ _ _)

/-- C8 amended: in mode-0 tiled rendering a pixel is written exactly
when the looked-up palette color is not RGB24-black — the palette index
is not consulted for transparency.  Consequently every framebuffer cell
after rendering a scanline either keeps its prior value or holds a
non-black palette color. -/
theorem scanline_mode0_transparency (bgcnt bghofs bgvofs scanline : Nat)
    (sb : SysBusM) (fb : Fb) (i : Nat) :
    scanlineMode0 bgcnt bghofs bgvofs scanline sb fb i = fb i ∨
    getRgb24 (scanlineMode0 bgcnt bghofs bgvofs scanline sb fb i) ≠ (0, 0, 0) := by
  exact mode0TilesLoop_preserves _ _ _ _ _ _ _ _ _ _ _ _ _ _ _ _ i


set_option maxRecDepth 100000 in
/-- C8 counterexample: with all-zero VRAM every pixel's looked-up
palette index is 0, yet rendering scanline 0 writes palette color 0
(0xffff, non-black) into the framebuffer: cell (0,0) changes from 0 to
0xffff, where the claim requires palette-index-0 pixels never to be
written regardless of palette contents. -/
theorem scanline_mode0_index0_written :
    readPixelIndex sbWhitePalette 0 0 0 PixelFormat.BPP4 = 0 ∧
    getPaletteColor sbWhitePalette 0 0 = 0xffff ∧
    scanlineMode0 0 0 0 0 sbWhitePalette (fun _ => 0) 0 = 0xffff := by
  decide
